import Mathlib

/-!
Verification of the balanced-ternary codec and golden-angle spiral generator
of the Limnus-AI-Personality repository.

The codec lives in `src/constants/limnus.ts` (`decimalToBalancedTernary`,
`CONFIG.TERNARY`) and `src/components/TPhi10NeuralLimnus.tsx`
(`balancedTernaryToDecimal`, `validateTernaryInput`, and a duplicate
`decimalToBalancedTernary`).  The spiral generator lives in
`src/constants/limnus.ts` (`LimnusSpiralGenerator`) with a near-duplicate,
differently parameterised copy in `src/components/TPhi10NeuralLimnus.tsx`.

JavaScript arithmetic on integer-valued numbers is embedded into `ℤ`:
the JS remainder operator `%` truncates toward zero, which is `Int.tmod`;
`Math.floor(a / b)` is floor division, `Int.fdiv`.  Real-valued node
geometry (`Math.sqrt`, `Math.cos`, `Math.sin`, `Math.exp`, `Math.pow`) is
embedded into `ℝ` with the corresponding real functions.
-/

/-- `CONFIG.TERNARY.CODE_LENGTH` in `src/constants/limnus.ts` (value 5). -/
def CODE_LENGTH : ℕ := 5

/-- `CONFIG.TERNARY.BASE` in `src/constants/limnus.ts` (value 3). -/
def BASE : ℤ := 3

/-- `CONFIG.TERNARY.DIGIT_MAP` in `src/constants/limnus.ts`:
the map `T ↦ -1, 0 ↦ 0, 1 ↦ 1`; `Map.get` returns `undefined` (here `none`)
on every other character. -/
def DIGIT_MAP (c : Char) : Option ℤ :=
  if c = 'T' then some (-1)
  else if c = '0' then some 0
  else if c = '1' then some 1
  else none

/-- The normalised remainder `((num % 3) + 3) % 3` computed inside
`decimalToBalancedTernary`, with the JS truncating `%` rendered as
`Int.tmod`. -/
def jsMod3 (num : ℤ) : ℤ := ((num.tmod 3) + 3).tmod 3

/-- The `while (num !== 0)` loop body of `decimalToBalancedTernary`
(`src/constants/limnus.ts` lines 51-60): take the normalised remainder;
on remainder 2 emit digit `T` and continue with `Math.floor(num / 3) + 1`,
otherwise emit `0` or `1` and continue with `Math.floor(num / 3)`;
each digit is prepended (`digits.unshift`).  The loop terminates because
`|num|` strictly decreases; the `fuel` argument bounds the number of
iterations, and every caller passes more fuel than the loop can use. -/
def toBTDigits : ℕ → ℤ → List Char → List Char
  | 0, _, acc => acc
  | fuel + 1, num, acc =>
    if num = 0 then acc
    else
      let remainder := jsMod3 num
      if remainder = 2 then
        toBTDigits fuel (num.fdiv 3 + 1) ('T' :: acc)
      else
        toBTDigits fuel (num.fdiv 3) ((if remainder = 1 then '1' else '0') :: acc)

/-- JS `String.prototype.padStart` on a list of characters: left-pad with
`c` up to length `n`; a string already of length `≥ n` is unchanged. -/
def padStart (n : ℕ) (c : Char) (l : List Char) : List Char :=
  List.replicate (n - l.length) c ++ l

/-- `decimalToBalancedTernary` (`src/constants/limnus.ts` lines 47-62, and
the identical copy in `src/components/TPhi10NeuralLimnus.tsx` lines 447-466):
`0` maps to `"00000"`; otherwise run the remainder loop and left-pad the
digit string with `'0'` to `CODE_LENGTH`.  The input is embedded as `ℤ`;
the `Math.round` in the constants-file copy is the identity on integers. -/
def decimalToBalancedTernary (decimal : ℤ) : String :=
  if decimal = 0 then "00000"
  else String.mk (padStart CODE_LENGTH '0' (toBTDigits (decimal.natAbs + 1) decimal []))

/-- The accumulation loop of `balancedTernaryToDecimal`
(`src/components/TPhi10NeuralLimnus.tsx` lines 469-480): walking the code
from its last character to its first (here: over the reversed character
list), add `digitValue * power` and multiply `power` by `BASE`;
`DIGIT_MAP.get(code[i]) ?? 0` defaults unmapped characters to `0`. -/
def btdAux : List Char → ℤ → ℤ
  | [], _ => 0
  | c :: rest, power => (DIGIT_MAP c).getD 0 * power + btdAux rest (power * BASE)

/-- `balancedTernaryToDecimal` (`src/components/TPhi10NeuralLimnus.tsx`
lines 469-480). -/
def balancedTernaryToDecimal (code : String) : ℤ :=
  btdAux code.data.reverse 1

/-- The three balanced-ternary digit characters. -/
def tritChars : List Char := ['T', '0', '1']

/-- The test performed by `CONFIG.TERNARY.VALID_PATTERN`, the regular
expression `^[T01]{5}$` of `src/constants/limnus.ts` line 12: exactly
`CODE_LENGTH` characters, all drawn from `T`, `0`, `1`. -/
def validPatternTest (s : String) : Bool :=
  s.length == CODE_LENGTH && s.data.all fun c => c == 'T' || c == '0' || c == '1'

/-- The result record of `validateTernaryInput`. -/
structure ValidationOutcome where
  isValid : Bool
  error : Option String
  deriving DecidableEq

/-- `validateTernaryInput` (`src/components/TPhi10NeuralLimnus.tsx`
lines 482-503): empty input, wrong length, and pattern failure each return
`isValid := false` with a message; otherwise `isValid := true`.
(The dynamic listing of offending characters in the third message is
abbreviated; no claim concerns the message text.) -/
def validateTernaryInput (input : String) : ValidationOutcome :=
  if input.length = 0 then
    ⟨false, some "Input cannot be empty"⟩
  else if input.length ≠ CODE_LENGTH then
    ⟨false, some "Input must be exactly 5 characters long"⟩
  else if ¬ validPatternTest input then
    ⟨false, some "Invalid characters. Use only T, 0, 1"⟩
  else
    ⟨true, none⟩

/-- All character lists of length `n` over `tritChars`: the well-formed
balanced-ternary codes of length `n`. -/
def allCodes : ℕ → List (List Char)
  | 0 => [[]]
  | n + 1 => tritChars.flatMap fun c => (allCodes n).map fun l => c :: l

/-- Characters that the sigil alphabet does not contain are replaced by
`'0'`; used to state that `balancedTernaryToDecimal` treats unmapped
characters as the digit `0`. -/
def sanitizeChar (c : Char) : Char := if c ∈ tritChars then c else '0'

theorem digit_getD_sanitize (c : Char) :
    (DIGIT_MAP (sanitizeChar c)).getD 0 = (DIGIT_MAP c).getD 0 := by
  by_cases h : c ∈ tritChars
  · simp [sanitizeChar, h]
  · simp only [tritChars, List.mem_cons, List.mem_singleton, not_or] at h
    obtain ⟨h1, h2, h3⟩ := h
    simp [sanitizeChar, tritChars, DIGIT_MAP, h1, h2, h3]

theorem btdAux_map_sanitize (l : List Char) (p : ℤ) :
    btdAux (l.map sanitizeChar) p = btdAux l p := by
  induction l generalizing p with
  | nil => rfl
  | cons c t ih => simp [btdAux, digit_getD_sanitize, ih]

theorem btdAux_replace_unmapped (xs ys : List Char) (c : Char) (p : ℤ)
    (h : DIGIT_MAP c = none) :
    btdAux (xs ++ c :: ys) p = btdAux (xs ++ '0' :: ys) p := by
  induction xs generalizing p with
  | nil =>
    have h0 : DIGIT_MAP '0' = some 0 := rfl
    simp only [List.nil_append, btdAux, h, h0, Option.getD_some, Option.getD_none, zero_mul]
  | cons d t ih => simp [btdAux, ih]

theorem mem_allCodes (l : List Char) (h : ∀ c ∈ l, c ∈ tritChars) :
    l ∈ allCodes l.length := by
  induction l with
  | nil => simp [allCodes]
  | cons c t ih =>
    simp only [List.length_cons, allCodes, List.mem_flatMap, List.mem_map]
    exact ⟨c, h c (by simp), t, ih fun x hx => h x (by simp [hx]), rfl⟩

set_option maxRecDepth 80000 in
theorem decode_encode_on_range :
    ∀ n ∈ List.range 243,
      balancedTernaryToDecimal (decimalToBalancedTernary ((n : ℤ) - 121)) = (n : ℤ) - 121 := by
  decide

set_option maxRecDepth 80000 in
theorem encode_decode_on_codes :
    ∀ l ∈ allCodes 5,
      decimalToBalancedTernary (balancedTernaryToDecimal (String.mk l)) = String.mk l := by
  decide

set_option maxRecDepth 80000 in
theorem encode_length_on_range :
    ∀ n ∈ List.range 243, (decimalToBalancedTernary ((n : ℤ) - 121)).length = 5 := by
  decide

/-- C1: for every integer `v ∈ [-121, 121]`, decoding the result of
`decimalToBalancedTernary v` with `balancedTernaryToDecimal` yields `v`;
and for every well-formed 5-character code over `{T,0,1}`, encoding its
decoded value yields the code unchanged. -/
theorem C1_codec_round_trip :
    (∀ v : ℤ, -121 ≤ v → v ≤ 121 →
      balancedTernaryToDecimal (decimalToBalancedTernary v) = v) ∧
    (∀ s : String, s.length = 5 → (∀ c ∈ s.data, c ∈ tritChars) →
      decimalToBalancedTernary (balancedTernaryToDecimal s) = s) := by
  constructor
  · intro v h1 h2
    have hv : v = ((v + 121).toNat : ℤ) - 121 := by omega
    have hm : (v + 121).toNat ∈ List.range 243 := by
      rw [List.mem_range]; omega
    rw [hv]
    exact decode_encode_on_range _ hm
  · intro s h5 hc
    obtain ⟨l⟩ := s
    have hlen : l.length = 5 := h5
    have hmem : l ∈ allCodes 5 := hlen ▸ mem_allCodes l hc
    exact encode_decode_on_codes l hmem

theorem C1_codec_round_trip_witness :
    balancedTernaryToDecimal (decimalToBalancedTernary 7) = 7 ∧
    decimalToBalancedTernary (balancedTernaryToDecimal "10T1T") = "10T1T" :=
  ⟨C1_codec_round_trip.1 7 (by decide) (by decide),
   C1_codec_round_trip.2 "10T1T" (by decide) (by decide)⟩

/-- C2 counterexample: `decimalToBalancedTernary` performs no range check:
at the out-of-range input 122 it does not fail but returns the 6-character
string `"1TTTTT"`. -/
theorem C2_encode_no_range_error_cex :
    decimalToBalancedTernary 122 = "1TTTTT" ∧
    (decimalToBalancedTernary 122).length = 6 := by
  constructor <;> decide

/-- C2 amended: `decimalToBalancedTernary` never raises an InvalidRange
error; for inputs outside `[-121, 121]` it returns the balanced-ternary
representation with more than `CODE_LENGTH` characters (e.g.
`"1TTTTT"` at 122 and `"T11111"` at -122), while for every input in
`[-121, 121]` the result has exactly `CODE_LENGTH = 5` characters. -/
theorem C2_encode_total_no_range_check :
    decimalToBalancedTernary 122 = "1TTTTT" ∧
    decimalToBalancedTernary (-122) = "T11111" ∧
    (∀ v : ℤ, -121 ≤ v → v ≤ 121 → (decimalToBalancedTernary v).length = 5) := by
  refine ⟨by decide, by decide, ?_⟩
  intro v h1 h2
  have hv : v = ((v + 121).toNat : ℤ) - 121 := by omega
  have hm : (v + 121).toNat ∈ List.range 243 := by
    rw [List.mem_range]; omega
  rw [hv]
  exact encode_length_on_range _ hm

theorem C2_encode_total_no_range_check_witness :
    (decimalToBalancedTernary 7).length = 5 :=
  C2_encode_total_no_range_check.2.2 7 (by decide) (by decide)

/-- C3 counterexample: `balancedTernaryToDecimal` does not raise an
InvalidCharacter error on input containing characters outside `{T,0,1}`:
it returns the integer 0 on `"ABCDE"`. -/
theorem C3_decode_no_char_error_cex :
    balancedTernaryToDecimal "ABCDE" = 0 := by decide

/-- C3 amended: `balancedTernaryToDecimal` never raises on characters
outside `{T,0,1}`; every such character is treated as the digit `0`
(`DIGIT_MAP.get(code[i]) ?? 0`): a string containing an unmapped
character decodes to the same value as the string with that character
replaced by `'0'`. -/
theorem C3_decode_unmapped_as_zero (l r : List Char) (c : Char)
    (h1 : c ≠ 'T') (h2 : c ≠ '0') (h3 : c ≠ '1') :
    balancedTernaryToDecimal (String.mk (l ++ c :: r)) =
      balancedTernaryToDecimal (String.mk (l ++ '0' :: r)) := by
  have hnone : DIGIT_MAP c = none := by simp [DIGIT_MAP, h1, h2, h3]
  simp only [balancedTernaryToDecimal, String.data]
  rw [List.reverse_append, List.reverse_cons, List.reverse_append, List.reverse_cons]
  simp only [List.append_assoc, List.singleton_append]
  exact btdAux_replace_unmapped _ _ c 1 hnone

theorem C3_decode_unmapped_as_zero_witness :
    balancedTernaryToDecimal (String.mk (['1'] ++ 'X' :: ['1'])) =
      balancedTernaryToDecimal (String.mk (['1'] ++ '0' :: ['1'])) :=
  C3_decode_unmapped_as_zero ['1'] ['1'] 'X' (by decide) (by decide) (by decide)

/-- C4: `balancedTernaryToDecimal` is total: it returns an integer on
every string — the empty string and all-invalid strings decode to 0, and
in general every character outside `{T,0,1}` contributes as the digit `0`,
so a string decodes to the same value as its sanitised form. -/
theorem C4_decode_total :
    balancedTernaryToDecimal "" = 0 ∧
    balancedTernaryToDecimal "XXXXX" = 0 ∧
    (∀ s : String,
      balancedTernaryToDecimal s =
        balancedTernaryToDecimal (String.mk (s.data.map sanitizeChar))) := by
  refine ⟨by decide, by decide, ?_⟩
  intro s
  obtain ⟨l⟩ := s
  simp only [balancedTernaryToDecimal, String.data]
  rw [← List.map_reverse]
  exact (btdAux_map_sanitize l.reverse 1).symm

theorem C4_decode_total_witness :
    balancedTernaryToDecimal "1A1" =
      balancedTernaryToDecimal (String.mk ("1A1".data.map sanitizeChar)) :=
  C4_decode_total.2.2 "1A1"

/-- C5: concrete codec vectors at code length 5: `0 ↦ "00000"`,
`121 ↦ "11111"`, `-121 ↦ "TTTTT"`, and the three converse decodings. -/
theorem C5_codec_vectors :
    decimalToBalancedTernary 0 = "00000" ∧
    decimalToBalancedTernary 121 = "11111" ∧
    decimalToBalancedTernary (-121) = "TTTTT" ∧
    balancedTernaryToDecimal "00000" = 0 ∧
    balancedTernaryToDecimal "11111" = 121 ∧
    balancedTernaryToDecimal "TTTTT" = -121 := by
  refine ⟨by decide, by decide, by decide, by decide, by decide, by decide⟩

theorem validate_isValid_eq (s : String) :
    (validateTernaryInput s).isValid = validPatternTest s := by
  unfold validateTernaryInput
  split_ifs with h1 h2 h3
  · simp [validPatternTest, h1, CODE_LENGTH]
  · have : (s.length == CODE_LENGTH) = false := by
      simpa using h2
    simp [validPatternTest, this]
  · simp only [Bool.not_eq_true] at h3
    exact h3.symm
  · simp only [Bool.not_eq_true, not_not] at h3
    exact h3.symm

theorem validPatternTest_iff (s : String) :
    validPatternTest s = true ↔ (s.length = 5 ∧ ∀ c ∈ s.data, c ∈ tritChars) := by
  simp only [validPatternTest, CODE_LENGTH, Bool.and_eq_true, beq_iff_eq,
    List.all_eq_true, Bool.or_eq_true, tritChars, List.mem_cons, List.mem_singleton,
    List.not_mem_nil, or_false]
  constructor
  · rintro ⟨hl, hc⟩
    exact ⟨hl, fun c hm => by rcases hc c hm with (h | h) | h <;> tauto⟩
  · rintro ⟨hl, hc⟩
    exact ⟨hl, fun c hm => by rcases hc c hm with h | h | h <;> tauto⟩

/-- C6: `validateTernaryInput` accepts exactly the strings with
`CODE_LENGTH = 5` characters all in `{T,0,1}`, and in particular
accepts `"TT1T1"` and rejects `"TT1T12"` (wrong length) and `"TT1TX"`
(bad character); it is a total function and never raises. -/
theorem C6_validate_iff :
    (∀ s : String,
      (validateTernaryInput s).isValid = true ↔
        (s.length = 5 ∧ ∀ c ∈ s.data, c ∈ tritChars)) ∧
    (validateTernaryInput "TT1T1").isValid = true ∧
    (validateTernaryInput "TT1T12").isValid = false ∧
    (validateTernaryInput "TT1TX").isValid = false := by
  refine ⟨?_, by decide, by decide, by decide⟩
  intro s
  rw [validate_isValid_eq]
  exact validPatternTest_iff s

theorem C6_validate_iff_witness :
    (validateTernaryInput "10101").isValid = true ↔
      ("10101".length = 5 ∧ ∀ c ∈ "10101".data, c ∈ tritChars) :=
  C6_validate_iff.1 "10101"

/-- `CONFIG.LIMNUS.SPIRAL_NODES` in `src/constants/limnus.ts` (value 100). -/
def SPIRAL_NODES : ℕ := 100

/-- `CONFIG.LIMNUS.PHI` in `src/constants/limnus.ts`: the golden ratio
`(1 + Math.sqrt(5)) / 2`. -/
noncomputable def PHI : ℝ := (1 + Real.sqrt 5) / 2

/-- `CONFIG.LIMNUS.GOLDEN_ANGLE` in `src/constants/limnus.ts`:
`2 * Math.PI * (1 - 1 / PHI)`. -/
noncomputable def GOLDEN_ANGLE : ℝ := 2 * Real.pi * (1 - 1 / PHI)

/-- `CONFIG.LIMNUS.QUANTUM_DAMPENING` in `src/constants/limnus.ts`
(value 0.15). -/
noncomputable def QUANTUM_DAMPENING : ℝ := 0.15

/-- The `SpiralNode` record of `src/constants/limnus.ts` lines 139-147,
with JS floating-point fields embedded as `ℝ`. -/
structure SpiralNode where
  index : ℕ
  x : ℝ
  y : ℝ
  theta : ℝ
  r : ℝ
  phi_n : ℝ
  quantum_factor : ℝ

/-- The node built at index `i` by `LimnusSpiralGenerator.generateNodes`
(`src/constants/limnus.ts` lines 157-173): `theta = i * GOLDEN_ANGLE`,
`r = Math.sqrt(i) * 10`, `x = r * cos theta`, `y = r * sin theta`,
`phi_n = Math.pow(PHI, i / 10)`,
`quantum_factor = Math.exp(-i * QUANTUM_DAMPENING)`. -/
noncomputable def spiralNode (i : ℕ) : SpiralNode :=
  let theta : ℝ := (i : ℝ) * GOLDEN_ANGLE
  let r : ℝ := Real.sqrt (i : ℝ) * 10
  { index := i
    x := r * Real.cos theta
    y := r * Real.sin theta
    theta := theta
    r := r
    phi_n := PHI ^ ((i : ℝ) / 10)
    quantum_factor := Real.exp (-(i : ℝ) * QUANTUM_DAMPENING) }

/-- `LimnusSpiralGenerator.generateNodes`: the loop
`for (let i = 0; i < CONFIG.LIMNUS.SPIRAL_NODES; i++)` pushing one node
per index into `this.nodes`. -/
noncomputable def generateNodes : List SpiralNode :=
  (List.range SPIRAL_NODES).map spiralNode

/-- The mutable state of a `LimnusSpiralGenerator` instance: the cursor
`currentIndex` (the node array itself is fixed at construction). -/
structure LimnusSpiralGeneratorState where
  currentIndex : ℕ

/-- The state after the constructor runs: `currentIndex = 0`. -/
def initialGeneratorState : LimnusSpiralGeneratorState := ⟨0⟩

/-- `LimnusSpiralGenerator.getCurrentNode`
(`src/constants/limnus.ts` lines 175-177): `this.nodes[this.currentIndex]`;
out-of-bounds JS indexing would yield `undefined`, embedded as `none`. -/
noncomputable def getCurrentNode (s : LimnusSpiralGeneratorState) : Option SpiralNode :=
  generateNodes[s.currentIndex]?

/-- The state change of `LimnusSpiralGenerator.advance`
(`src/constants/limnus.ts` lines 179-182):
`this.currentIndex = (this.currentIndex + 1) % this.nodes.length`;
the returned value is `getCurrentNode` of the new state. -/
noncomputable def advance (s : LimnusSpiralGeneratorState) : LimnusSpiralGeneratorState :=
  ⟨(s.currentIndex + 1) % generateNodes.length⟩

/-- The `phi_n` field as computed by the near-duplicate generator
`LimnusSpiralGenerator.generateInitialNodes` in
`src/components/TPhi10NeuralLimnus.tsx` (line with
`const phi_n = Math.pow(CONFIG.LIMNUS.PHI, i);`): exponent `i`,
not `i / 10`. -/
noncomputable def generateInitialNodes_phi_n (i : ℕ) : ℝ := PHI ^ (i : ℝ)

theorem generateNodes_length : generateNodes.length = SPIRAL_NODES := by
  simp [generateNodes]

theorem generateNodes_getElem (i : ℕ) (h : i < SPIRAL_NODES) :
    generateNodes[i]? = some (spiralNode i) := by
  simp [generateNodes, List.getElem?_map, List.getElem?_range, h]

/-- C7: for every index `i < SPIRAL_NODES`, the node produced by
`generateNodes` satisfies `theta = i * GOLDEN_ANGLE`,
`r = sqrt i * 10`, `x = r * cos theta`, `y = r * sin theta`, and
`quantum_factor = exp (-i * 0.15)`, with
`GOLDEN_ANGLE = 2 * pi * (1 - 1 / PHI)` and `PHI = (1 + sqrt 5) / 2`;
every field is a pure function of `i` and these constants. -/
theorem C7_spiral_node_formulas :
    PHI = (1 + Real.sqrt 5) / 2 ∧
    GOLDEN_ANGLE = 2 * Real.pi * (1 - 1 / PHI) ∧
    ∀ i : ℕ, i < SPIRAL_NODES →
      generateNodes[i]? = some
        { index := i
          x := Real.sqrt (i : ℝ) * 10 * Real.cos ((i : ℝ) * GOLDEN_ANGLE)
          y := Real.sqrt (i : ℝ) * 10 * Real.sin ((i : ℝ) * GOLDEN_ANGLE)
          theta := (i : ℝ) * GOLDEN_ANGLE
          r := Real.sqrt (i : ℝ) * 10
          phi_n := PHI ^ ((i : ℝ) / 10)
          quantum_factor := Real.exp (-(i : ℝ) * 0.15) } := by
  refine ⟨rfl, rfl, ?_⟩
  intro i h
  rw [generateNodes_getElem i h]
  simp [spiralNode, QUANTUM_DAMPENING]

theorem C7_spiral_node_formulas_witness :
    generateNodes[3]? = some
      { index := 3
        x := Real.sqrt (3 : ℝ) * 10 * Real.cos ((3 : ℝ) * GOLDEN_ANGLE)
        y := Real.sqrt (3 : ℝ) * 10 * Real.sin ((3 : ℝ) * GOLDEN_ANGLE)
        theta := (3 : ℝ) * GOLDEN_ANGLE
        r := Real.sqrt (3 : ℝ) * 10
        phi_n := PHI ^ ((3 : ℝ) / 10)
        quantum_factor := Real.exp (-(3 : ℝ) * 0.15) } := by
  have h := C7_spiral_node_formulas.2.2 3 (by decide)
  simpa using h

/-- C8: `advance` sets `currentIndex` to `(currentIndex + 1) mod N`, so
`currentIndex` always stays in `[0, N)`; starting at index 0, after exactly
`N = SPIRAL_NODES` calls the current node again equals `spiralNode 0` —
a full wraparound cycle with no terminal state. -/
theorem C8_advance_wraparound :
    (∀ s : LimnusSpiralGeneratorState,
      (advance s).currentIndex = (s.currentIndex + 1) % generateNodes.length) ∧
    (∀ s : LimnusSpiralGeneratorState, (advance s).currentIndex < SPIRAL_NODES) ∧
    getCurrentNode initialGeneratorState = some (spiralNode 0) ∧
    getCurrentNode (advance^[SPIRAL_NODES] initialGeneratorState) = some (spiralNode 0) := by
  have hlen : generateNodes.length = 100 := generateNodes_length
  have hiter : ∀ k : ℕ,
      (advance^[k] initialGeneratorState).currentIndex = k % 100 := by
    intro k
    induction k with
    | zero => rfl
    | succ k ih =>
      rw [Function.iterate_succ_apply']
      simp only [advance, hlen, ih]
      exact Nat.mod_add_mod k 100 1
  refine ⟨fun s => rfl, ?_, ?_, ?_⟩
  · intro s
    simp only [advance, hlen, SPIRAL_NODES]
    exact Nat.mod_lt _ (by norm_num)
  · exact generateNodes_getElem 0 (by decide)
  · have h0 : (advance^[SPIRAL_NODES] initialGeneratorState).currentIndex = 0 := by
      rw [hiter]; rfl
    simp only [getCurrentNode, h0]
    exact generateNodes_getElem 0 (by decide)

theorem C8_advance_wraparound_witness :
    (advance ⟨3⟩).currentIndex = (3 + 1) % generateNodes.length ∧
    (advance ⟨205⟩).currentIndex < SPIRAL_NODES :=
  ⟨C8_advance_wraparound.1 ⟨3⟩, C8_advance_wraparound.2.1 ⟨205⟩⟩

theorem quantum_factor_eq (i : ℕ) :
    (spiralNode i).quantum_factor = Real.exp (-(i : ℝ) * 0.15) := by
  simp [spiralNode, QUANTUM_DAMPENING]

/-- C9: the `quantum_factor` field of the generated spiral nodes is
strictly decreasing in the index and bounded in `(0, 1]`, with value 1 at
index 0. -/
theorem C9_quantum_factor_decay :
    (∀ i1 i2 : ℕ, i1 < i2 → i2 < SPIRAL_NODES →
      (spiralNode i2).quantum_factor < (spiralNode i1).quantum_factor) ∧
    (∀ i : ℕ, i < SPIRAL_NODES →
      0 < (spiralNode i).quantum_factor ∧ (spiralNode i).quantum_factor ≤ 1) ∧
    (spiralNode 0).quantum_factor = 1 := by
  refine ⟨?_, ?_, ?_⟩
  · intro i1 i2 h _
    rw [quantum_factor_eq, quantum_factor_eq]
    apply Real.exp_lt_exp.mpr
    have h12 : (i1 : ℝ) < (i2 : ℝ) := by exact_mod_cast h
    nlinarith
  · intro i _
    rw [quantum_factor_eq]
    refine ⟨Real.exp_pos _, ?_⟩
    have hi : (0 : ℝ) ≤ (i : ℝ) := Nat.cast_nonneg i
    have : -(i : ℝ) * 0.15 ≤ 0 := by nlinarith
    calc Real.exp (-(i : ℝ) * 0.15) ≤ Real.exp 0 := Real.exp_le_exp.mpr this
      _ = 1 := Real.exp_zero
  · rw [quantum_factor_eq]
    norm_num

theorem C9_quantum_factor_decay_witness :
    (spiralNode 5).quantum_factor < (spiralNode 2).quantum_factor ∧
    (0 < (spiralNode 7).quantum_factor ∧ (spiralNode 7).quantum_factor ≤ 1) :=
  ⟨C9_quantum_factor_decay.1 2 5 (by decide) (by decide),
   C9_quantum_factor_decay.2.1 7 (by decide)⟩

theorem one_lt_PHI : (1 : ℝ) < PHI := by
  have h5 : (1 : ℝ) < Real.sqrt 5 := by
    have h := Real.sqrt_lt_sqrt (by norm_num : (0 : ℝ) ≤ 1) (by norm_num : (1 : ℝ) < 5)
    simpa [Real.sqrt_one] using h
  simp only [PHI]
  linarith

/-- C10: the two near-duplicate spiral generators use different exponent
conventions: the one in `src/constants/limnus.ts` computes
`phi_n = PHI ^ (i / 10)` while the one in
`src/components/TPhi10NeuralLimnus.tsx` computes `phi_n = PHI ^ i`, and
for every index `i ≥ 1` the two values differ. -/
theorem C10_phi_exponent_conventions_differ :
    (∀ i : ℕ, (spiralNode i).phi_n = PHI ^ ((i : ℝ) / 10)) ∧
    (∀ i : ℕ, generateInitialNodes_phi_n i = PHI ^ (i : ℝ)) ∧
    (∀ i : ℕ, 1 ≤ i → (spiralNode i).phi_n ≠ generateInitialNodes_phi_n i) := by
  refine ⟨fun i => rfl, fun i => rfl, ?_⟩
  intro i hi
  have hone : (1 : ℝ) ≤ (i : ℝ) := by exact_mod_cast hi
  have hlt : (i : ℝ) / 10 < (i : ℝ) := by linarith
  have hpow : PHI ^ ((i : ℝ) / 10) < PHI ^ (i : ℝ) :=
    (Real.rpow_lt_rpow_left_iff one_lt_PHI).mpr hlt
  have : (spiralNode i).phi_n < generateInitialNodes_phi_n i := by
    simpa [spiralNode, generateInitialNodes_phi_n] using hpow
  exact ne_of_lt this

theorem C10_phi_exponent_conventions_differ_witness :
    (spiralNode 1).phi_n ≠ generateInitialNodes_phi_n 1 :=
  C10_phi_exponent_conventions_differ.2.2 1 (by decide)
